import Mathlib

/-!
Shallow embedding of the core of `mlx_speech_to_text` (recorder silence loop,
calibration, transcription validation, chat history and LLM request plumbing,
session status channel), together with proofs about the embedded definitions.
Python `float` values that arise here are exact results of integer arithmetic
and one division (a mean), so they are modelled with `ℚ`.
-/

namespace SpeechToText

/-! Configuration defaults, from `src/speech_to_text/config/settings.py`.
Environment-variable overrides are external configuration and are not
modelled; the values below are the hard-coded defaults. -/

def SILENCE_CHUNKS : Nat := 15

def DEFAULT_SILENCE_THRESHOLD : ℚ := 500

def CALIBRATION_FRAMES : Nat := 30

def CALIBRATION_BUFFER : ℚ := 200

def MINIMUM_WORD_COUNT : Nat := 3

def SUSPICIOUS_RESPONSES : List String :=
  ["thank you.", "thank you", "thanks", "okay", "ok", "yes", "no"]

def LLM_BASE_URL : String := "http://127.0.0.1:1234/v1"

def LLM_MODEL : String := "mistral-small-24b-instruct-2501@4bit"

def LLM_MAX_TOKENS : Nat := 2048

def LLM_TEMPERATURE : ℚ := 7 / 10

def LLM_REQUEST_TIMEOUT : Nat := 600

/-! Recorder, from `src/speech_to_text/audio/recorder.py`. -/

/-- One result of `self.stream.read(CHUNK_SIZE, ...)` inside the recording
loop: either the int16 samples of one chunk, or a raised exception. -/
inductive AudioRead where
  | ok (samples : List Int)
  | err
deriving DecidableEq

/-- Peak absolute amplitude of one chunk:
`mx.max(mx.abs(audio_data)).item()` in the source. -/
def peakAmp (samples : List Int) : Nat :=
  (samples.map Int.natAbs).foldr max 0

/-- The silence test of `record_audio`:
`max_amplitude < self.silence_threshold` (threshold is a Python float). -/
def isSilent (threshold : ℚ) (samples : List Int) : Bool :=
  decide ((peakAmp samples : ℚ) < threshold)

/-- Body of the `while True` loop of `AudioRecorder.record_audio`
(recorder.py lines 139-184), with the microphone stream modelled as a list
of reads.  `c` is `silent_chunks` and `acc` holds `frames` in reverse.
Per iteration the source reads a chunk, updates `silent_chunks` (increment
when silent, reset to 0 otherwise), breaks out of the loop when
`silent_chunks > SILENCE_CHUNKS` BEFORE appending, and otherwise appends
the chunk to `frames`.  A raised read exception - and, in this finite
model, exhausting the read list - lands in the `except` branch, which
returns `(frames, False)`. -/
def recordGo (threshold : ℚ) (K : Nat) :
    List AudioRead → Nat → List (List Int) → List (List Int) × Bool
  | [], _, acc => (acc.reverse, false)
  | AudioRead.err :: _, _, acc => (acc.reverse, false)
  | AudioRead.ok f :: rest, c, acc =>
    let c1 := if isSilent threshold f then c + 1 else 0
    if K < c1 then (acc.reverse, true)
    else recordGo threshold K rest c1 (f :: acc)

/-- Embedding of `AudioRecorder.record_audio`: returns the collected frames
and the success flag. -/
def record_audio (threshold : ℚ) (reads : List AudioRead) :
    List (List Int) × Bool :=
  recordGo threshold SILENCE_CHUNKS reads 0 []

/-- Success flag of the recording loop on exception-free reads, carrying the
`silent_chunks` counter explicitly. -/
def recordSucc (threshold : ℚ) (K : Nat) : List (List Int) → Nat → Bool
  | [], _ => false
  | f :: rest, c =>
    let c1 := if isSilent threshold f then c + 1 else 0
    if K < c1 then true else recordSucc threshold K rest c1

/-- Every chunk of the list is below the threshold. -/
def allSilent (threshold : ℚ) (l : List (List Int)) : Bool :=
  l.all (isSilent threshold)

/-- The first `n` chunks of the list exist and are all silent. -/
def silentWindow (threshold : ℚ) (n : Nat) (l : List (List Int)) : Bool :=
  decide (n ≤ l.length) && allSilent threshold (l.take n)

/-- Spec-side characterisation of the stop condition (written from the
spec's words, for comparison with the loop): some run of `K + 1`
consecutive chunks is entirely below the threshold. -/
def hasSilentRun (threshold : ℚ) (K : Nat) : List (List Int) → Bool
  | [] => false
  | f :: rest =>
    silentWindow threshold (K + 1) (f :: rest) || hasSilentRun threshold K rest

/-- On exception-free reads, the success flag computed by the loop is
`recordSucc`. -/
theorem recordGo_map_ok (t : ℚ) (K : Nat) :
    ∀ (l : List (List Int)) (c : Nat) (acc : List (List Int)),
      (recordGo t K (l.map AudioRead.ok) c acc).2 = recordSucc t K l c := by
  intro l
  induction l with
  | nil => intro c acc; rfl
  | cons f rest ih =>
    intro c acc
    simp only [List.map_cons, recordGo, recordSucc]
    by_cases h : K < (if isSilent t f then c + 1 else 0)
    · simp [h]
    · simp [h, ih]

/-- Unfolding a silent window at a cons cell. -/
theorem silentWindow_cons (t : ℚ) (n : Nat) (f : List Int) (rest : List (List Int)) :
    silentWindow t (n + 1) (f :: rest) = (isSilent t f && silentWindow t n rest) := by
  by_cases h : n ≤ rest.length
  · have h1 : n + 1 ≤ (f :: rest).length := by simp; omega
    simp only [silentWindow, allSilent, List.take_succ_cons, List.all_cons,
      decide_eq_true h, decide_eq_true h1, Bool.true_and]
  · have h1 : ¬ (n + 1 ≤ (f :: rest).length) := by simp; omega
    simp only [silentWindow, allSilent, decide_eq_false h, decide_eq_false h1,
      Bool.false_and, Bool.and_false]

/-- A shorter silent window follows from a longer one. -/
theorem silentWindow_mono (t : ℚ) {n m : Nat} (hnm : m ≤ n) (l : List (List Int))
    (h : silentWindow t n l = true) : silentWindow t m l = true := by
  simp only [silentWindow, Bool.and_eq_true, decide_eq_true_eq, allSilent,
    List.all_eq_true] at h ⊢
  refine ⟨le_trans hnm h.1, fun x hx => h.2 x ?_⟩
  have : l.take m = (l.take n).take m := by
    rw [List.take_take, min_eq_left hnm]
  rw [this] at hx
  exact List.take_subset _ _ hx

/-- A fully silent window of length `K + 1` at the front is one of the runs
counted by `hasSilentRun`. -/
theorem hasSilentRun_of_window (t : ℚ) (K : Nat) (l : List (List Int))
    (h : silentWindow t (K + 1) l = true) : hasSilentRun t K l = true := by
  cases l with
  | nil => simp [silentWindow] at h
  | cons f rest => simp [hasSilentRun, h]

/-- Loop invariant: with `c` consecutive silent chunks already counted
(`c ≤ K`), the loop stops successfully iff the first `K + 1 - c` chunks are
all silent or a full silent run of `K + 1` chunks occurs anywhere. -/
theorem recordSucc_eq (t : ℚ) (K : Nat) :
    ∀ (l : List (List Int)) (c : Nat), c ≤ K →
      recordSucc t K l c
        = (silentWindow t (K + 1 - c) l || hasSilentRun t K l) := by
  intro l
  induction l with
  | nil =>
    intro c hc
    have h0 : K + 1 - c ≠ 0 := by omega
    simp [recordSucc, hasSilentRun, silentWindow, allSilent, h0]
  | cons f rest ih =>
    intro c hc
    cases hsil : isSilent t f with
    | true =>
      by_cases hK : K < c + 1
      · have h1 : K + 1 - c = 0 + 1 := by omega
        have lhs : recordSucc t K (f :: rest) c = true := by
          simp [recordSucc, hsil, hK]
        rw [lhs, h1, silentWindow_cons, hsil, Bool.true_and]
        have h0 : silentWindow t 0 rest = true := by
          simp [silentWindow, allSilent]
        simp [h0]
      · have hc1 : c + 1 ≤ K := by omega
        have h1 : K + 1 - c = (K - c) + 1 := by omega
        have h2 : K + 1 - (c + 1) = K - c := by omega
        have lhs : recordSucc t K (f :: rest) c = recordSucc t K rest (c + 1) := by
          simp [recordSucc, hsil, hK]
        rw [lhs, ih (c + 1) hc1, h2, h1, silentWindow_cons, hsil, Bool.true_and]
        conv_rhs => rw [hasSilentRun]
        rw [silentWindow_cons, hsil, Bool.true_and]
        cases hw : silentWindow t K rest with
        | true =>
          have hmono := silentWindow_mono t (Nat.sub_le K c) rest hw
          simp [hw, hmono]
        | false => simp [hw]
    | false =>
      have h0 : ¬ K < 0 := by omega
      have h1 : K + 1 - c = (K - c) + 1 := by omega
      have lhs : recordSucc t K (f :: rest) c = recordSucc t K rest 0 := by
        simp [recordSucc, hsil]
      rw [lhs, ih 0 (Nat.zero_le K), Nat.sub_zero, h1, silentWindow_cons, hsil,
        Bool.false_and, Bool.false_or]
      conv_rhs => rw [hasSilentRun]
      rw [silentWindow_cons, hsil, Bool.false_and, Bool.false_or]
      cases hw : silentWindow t (K + 1) rest with
      | true => simp [hw, hasSilentRun_of_window t K rest hw]
      | false => simp [hw]

/-- Starting from a zero counter, the loop stops successfully iff some run
of `K + 1` consecutive chunks is entirely silent. -/
theorem recordSucc_eq_hasSilentRun (t : ℚ) (K : Nat) (l : List (List Int)) :
    recordSucc t K l 0 = hasSilentRun t K l := by
  rw [recordSucc_eq t K l 0 (Nat.zero_le K)]
  simp only [Nat.sub_zero]
  cases hw : silentWindow t (K + 1) l with
  | true => simp [hasSilentRun_of_window t K l hw]
  | false => simp

/-- Processing a silent block that does not fill the budget just advances
the counter. -/
theorem recordSucc_skip (t : ℚ) (K : Nat) :
    ∀ (s : List (List Int)) (c : Nat) (m : List (List Int)),
      allSilent t s = true → c + s.length ≤ K →
      recordSucc t K (s ++ m) c = recordSucc t K m (c + s.length) := by
  intro s
  induction s with
  | nil => intro c m _ _; simp
  | cons f rest ih =>
    intro c m hall hlen
    have hf : isSilent t f = true := by
      simp only [allSilent, List.all_cons, Bool.and_eq_true] at hall
      exact hall.1
    have hrest : allSilent t rest = true := by
      simp only [allSilent, List.all_cons, Bool.and_eq_true] at hall
      exact hall.2
    have hlen' : (f :: rest).length = rest.length + 1 := by simp
    have hnotK : ¬ K < c + 1 := by rw [hlen'] at hlen; omega
    have ih' := ih (c + 1) m hrest (by rw [hlen'] at hlen; omega)
    have harr : c + 1 + rest.length = c + (f :: rest).length := by
      rw [hlen']; omega
    have lhs : recordSucc t K ((f :: rest) ++ m) c
        = recordSucc t K (rest ++ m) (c + 1) := by
      simp [recordSucc, hf, hnotK]
    rw [lhs, ih', harr]

/-- A loud chunk resets the silence counter to zero without stopping. -/
theorem recordSucc_reset (t : ℚ) (K : Nat) (a : List Int) (m : List (List Int))
    (c : Nat) (ha : isSilent t a = false) :
    recordSucc t K (a :: m) c = recordSucc t K m 0 := by
  simp [recordSucc, ha]

/-- C3: on every exception-free read sequence, `record_audio` terminates
successfully iff some run of consecutive below-threshold chunks strictly
exceeds `SILENCE_CHUNKS` (i.e. a run of `SILENCE_CHUNKS + 1` silent chunks
occurs); and a run of exactly `SILENCE_CHUNKS` silent chunks followed by an
above-threshold chunk does not stop the recording - the loud chunk resets
the silence counter to zero, so the remaining loop behaves as if started
fresh. -/
theorem record_audio_stop_boundary (t : ℚ) (l s rest : List (List Int))
    (a : List Int) (hs : allSilent t s = true)
    (hlen : s.length = SILENCE_CHUNKS) (ha : isSilent t a = false) :
    (record_audio t (l.map AudioRead.ok)).2 = hasSilentRun t SILENCE_CHUNKS l
    ∧ (record_audio t ((s ++ a :: rest).map AudioRead.ok)).2
        = (record_audio t (rest.map AudioRead.ok)).2 := by
  constructor
  · rw [record_audio, recordGo_map_ok, recordSucc_eq_hasSilentRun]
  · rw [record_audio, recordGo_map_ok, record_audio, recordGo_map_ok]
    rw [recordSucc_skip t SILENCE_CHUNKS s 0 (a :: rest) hs (by omega)]
    rw [Nat.zero_add, hlen, recordSucc_reset t SILENCE_CHUNKS a rest SILENCE_CHUNKS ha]

/-- Witness for the C3 theorem at concrete inputs: fifteen silent chunks,
one loud chunk, threshold 500. -/
theorem record_audio_stop_boundary_witness :
    allSilent 500 (List.replicate 15 ([0] : List Int)) = true
    ∧ (List.replicate 15 ([0] : List Int)).length = SILENCE_CHUNKS
    ∧ isSilent 500 [1000] = false
    ∧ ((record_audio 500 ([[0]].map AudioRead.ok)).2
         = hasSilentRun 500 SILENCE_CHUNKS [[0]]
       ∧ (record_audio 500
            ((List.replicate 15 ([0] : List Int) ++ [1000] :: ([] : List (List Int))).map
              AudioRead.ok)).2
           = (record_audio 500 (([] : List (List Int)).map AudioRead.ok)).2) :=
  ⟨by decide, by decide, by decide,
   record_audio_stop_boundary 500 [[0]] (List.replicate 15 [0]) [] [1000]
     (by decide) (by decide) (by decide)⟩

/-- The read sequence of the end-to-end example: 20 chunks with peak 1000
(above a threshold of 500) followed by 16 chunks with peak 0. -/
def exampleReads : List AudioRead :=
  (List.replicate 20 ([1000] : List Int)
    ++ List.replicate 16 ([0] : List Int)).map AudioRead.ok

/-- C2, counterexample: on 20 above-threshold chunks followed by 16
below-threshold chunks with `SILENCE_CHUNKS = 15`, `record_audio` does NOT
return 36 frames: the loop breaks before appending the 16th silent chunk
(the `break` precedes `frames.append`), so the stopping chunk is dropped. -/
theorem record_audio_example_not_36 :
    ¬ ((record_audio 500 exampleReads).1.length = 36) := by
  decide

/-- Number of chunks the recording loop appends before it breaks
(`none` when the loop never breaks): the loop appends every read until the
one whose updated counter exceeds `K`, and that stopping read itself is
not appended. -/
def framesKept (t : ℚ) (K : Nat) : List (List Int) → Nat → Option Nat
  | [], _ => none
  | f :: rest, c =>
    let c1 := if isSilent t f then c + 1 else 0
    if K < c1 then some 0
    else (framesKept t K rest c1).map (fun n => n + 1)

/-- Full characterisation of the loop on exception-free reads: when the
loop breaks after keeping `n` chunks, it returns the first `n` reads and
success; when it never breaks, it returns every read and failure. -/
theorem recordGo_frames (t : ℚ) (K : Nat) :
    ∀ (l : List (List Int)) (c : Nat) (acc : List (List Int)),
      recordGo t K (l.map AudioRead.ok) c acc
        = match framesKept t K l c with
          | some n => (acc.reverse ++ l.take n, true)
          | none => (acc.reverse ++ l, false) := by
  intro l
  induction l with
  | nil => intro c acc; simp [recordGo, framesKept]
  | cons f rest ih =>
    intro c acc
    by_cases hb : K < (if isSilent t f then c + 1 else 0)
    · simp [recordGo, framesKept, hb]
    · have h1 := ih (if isSilent t f then c + 1 else 0) (f :: acc)
      cases hk : framesKept t K rest (if isSilent t f then c + 1 else 0) with
      | none =>
        rw [hk] at h1
        simp only [List.map_cons, recordGo, if_neg hb]
        rw [h1]
        simp [framesKept, if_neg hb, hk, List.reverse_cons, List.append_assoc]
      | some m =>
        rw [hk] at h1
        simp only [List.map_cons, recordGo, if_neg hb]
        rw [h1]
        simp [framesKept, if_neg hb, hk, List.reverse_cons, List.append_assoc,
          List.take_succ_cons]

/-- When the loop breaks after keeping `n` chunks (entered with counter
`c ≤ K`), the stopping read exists (`n < l.length`) and the stopping read
closes an all-silent window: either the whole prefix `l.take (n + 1)` is
silent and the counter credit `c` completes the run, or the `K + 1` reads
ending at the stopping read are all silent. -/
theorem framesKept_stop (t : ℚ) (K : Nat) :
    ∀ (l : List (List Int)) (c n : Nat), c ≤ K → framesKept t K l c = some n →
      n < l.length
      ∧ ((n + c = K ∧ allSilent t (l.take (n + 1)) = true)
         ∨ (K ≤ n ∧ allSilent t ((l.drop (n - K)).take (K + 1)) = true)) := by
  intro l
  induction l with
  | nil => intro c n _ h; simp [framesKept] at h
  | cons f rest ih =>
    intro c n hc h
    cases hsil : isSilent t f with
    | true =>
      simp only [framesKept, hsil, if_true] at h
      by_cases hb : K < c + 1
      · rw [if_pos hb] at h
        have hn : n = 0 := by
          have h2 : (0 : Nat) = n := by simpa using h
          omega
        subst hn
        have hcK : c = K := by omega
        refine ⟨by simp, Or.inl ⟨by omega, ?_⟩⟩
        simp [allSilent, hsil]
      · rw [if_neg hb] at h
        cases hm : framesKept t K rest (c + 1) with
        | none => rw [hm] at h; simp at h
        | some m =>
          rw [hm] at h
          have hn : m + 1 = n := by simpa using h
          subst hn
          obtain ⟨hIH1, hIH2⟩ := ih (c + 1) m (by omega) hm
          refine ⟨by simp; omega, ?_⟩
          rcases hIH2 with ⟨hK1, hAll⟩ | ⟨hK1, hAll⟩
          · refine Or.inl ⟨by omega, ?_⟩
            rw [List.take_succ_cons]
            simpa [allSilent, hsil] using hAll
          · refine Or.inr ⟨by omega, ?_⟩
            have hd : m + 1 - K = (m - K) + 1 := by omega
            rw [hd, List.drop_succ_cons]
            exact hAll
    | false =>
      simp only [framesKept, hsil, Bool.false_eq_true, if_false] at h
      rw [if_neg (by omega)] at h
      cases hm : framesKept t K rest 0 with
      | none => rw [hm] at h; simp at h
      | some m =>
        rw [hm] at h
        have hn : m + 1 = n := by simpa using h
        subst hn
        obtain ⟨hIH1, hIH2⟩ := ih 0 m (Nat.zero_le K) hm
        refine ⟨by simp; omega, Or.inr ?_⟩
        rcases hIH2 with ⟨hK1, hAll⟩ | ⟨hK1, hAll⟩
        · have hmK : m = K := by omega
          refine ⟨by omega, ?_⟩
          have hd : m + 1 - K = 0 + 1 := by omega
          rw [hd, List.drop_succ_cons, List.drop_zero]
          rw [hmK] at hAll
          exact hAll
        · refine ⟨by omega, ?_⟩
          have hd : m + 1 - K = (m - K) + 1 := by omega
          rw [hd, List.drop_succ_cons]
          exact hAll

/-- C2, amended: for every threshold and every exception-free read
sequence, the returned frames are exactly the prefix of the reads of their
own length (every chunk read before the stop is appended, in order,
silent or not); when the loop never stops, every read is returned with
success=False; when it stops, exactly one consumed read - the stopping
chunk, which closes an all-silent window of `SILENCE_CHUNKS + 1`
consecutive reads whose first `SILENCE_CHUNKS` chunks are in the returned
frames - is dropped.  In particular, on 20 above-threshold chunks followed
by 16 below-threshold chunks with `SILENCE_CHUNKS = 15`, `record_audio`
returns the 20 loud chunks plus the first 15 silent ones - 35 frames, not
36 - and success=True. -/
theorem record_audio_appends_all_but_stopping (t : ℚ) (l : List (List Int)) :
    ((record_audio t (l.map AudioRead.ok)).1
        = l.take (record_audio t (l.map AudioRead.ok)).1.length
      ∧ ((record_audio t (l.map AudioRead.ok)).2 = false →
          (record_audio t (l.map AudioRead.ok)).1 = l)
      ∧ ((record_audio t (l.map AudioRead.ok)).2 = true →
          SILENCE_CHUNKS ≤ (record_audio t (l.map AudioRead.ok)).1.length
          ∧ (record_audio t (l.map AudioRead.ok)).1.length < l.length
          ∧ allSilent t ((l.drop ((record_audio t (l.map AudioRead.ok)).1.length
              - SILENCE_CHUNKS)).take (SILENCE_CHUNKS + 1)) = true))
    ∧ ((record_audio 500 exampleReads).1
        = List.replicate 20 ([1000] : List Int) ++ List.replicate 15 ([0] : List Int)
      ∧ (record_audio 500 exampleReads).2 = true
      ∧ (record_audio 500 exampleReads).1.length = 35) := by
  constructor
  · have hgo := recordGo_frames t SILENCE_CHUNKS l 0 []
    cases hk : framesKept t SILENCE_CHUNKS l 0 with
    | none =>
      rw [hk] at hgo
      simp only [List.reverse_nil, List.nil_append] at hgo
      have h1 : (record_audio t (l.map AudioRead.ok)).1 = l := by
        rw [record_audio, hgo]
      have h2 : (record_audio t (l.map AudioRead.ok)).2 = false := by
        rw [record_audio, hgo]
      rw [h1, h2]
      refine ⟨by rw [List.take_length], fun _ => rfl, fun hcontra => ?_⟩
      cases hcontra
    | some n =>
      obtain ⟨hlt, hdisj⟩ :=
        framesKept_stop t SILENCE_CHUNKS l 0 n (Nat.zero_le _) hk
      rw [hk] at hgo
      simp only [List.reverse_nil, List.nil_append] at hgo
      have h1 : (record_audio t (l.map AudioRead.ok)).1 = l.take n := by
        rw [record_audio, hgo]
      have h2 : (record_audio t (l.map AudioRead.ok)).2 = true := by
        rw [record_audio, hgo]
      have hlen : (l.take n).length = n := by
        rw [List.length_take]
        omega
      rw [h1, h2, hlen]
      refine ⟨rfl, ?_, ?_⟩
      · intro hcontra
        simp at hcontra
      intro _
      rcases hdisj with ⟨hK, hAll⟩ | ⟨hK, hAll⟩
      · have hnK : n = SILENCE_CHUNKS := by omega
        subst hnK
        refine ⟨le_refl _, hlt, ?_⟩
        simpa [Nat.sub_self] using hAll
      · exact ⟨hK, hlt, hAll⟩
  · refine ⟨by decide, by decide, by decide⟩

/-- Witness for the C2 theorem: the success branch at the 20-loud/16-silent
reads (the stopping chunk exists and ends an all-silent 16-window), and
the failure branch at a single silent read (every read returned). -/
theorem record_audio_appends_all_but_stopping_witness :
    (record_audio 500 exampleReads).2 = true
    ∧ (SILENCE_CHUNKS ≤ (record_audio 500 exampleReads).1.length
      ∧ (record_audio 500 exampleReads).1.length
          < (List.replicate 20 ([1000] : List Int)
              ++ List.replicate 16 ([0] : List Int)).length
      ∧ allSilent 500 (((List.replicate 20 ([1000] : List Int)
          ++ List.replicate 16 ([0] : List Int)).drop
            ((record_audio 500 exampleReads).1.length - SILENCE_CHUNKS)).take
              (SILENCE_CHUNKS + 1)) = true)
    ∧ (record_audio 500 ([[0]].map AudioRead.ok)).2 = false
    ∧ (record_audio 500 ([[0]].map AudioRead.ok)).1 = [[0]] :=
  ⟨by decide,
   (record_audio_appends_all_but_stopping 500
     (List.replicate 20 [1000] ++ List.replicate 16 [0])).1.2.2 (by decide),
   by decide,
   (record_audio_appends_all_but_stopping 500 [[0]]).1.2.1 (by decide)⟩

/-! Calibration, from `AudioRecorder.calibrate_silence_threshold`
(recorder.py lines 69-121). -/

/-- One result of `self.stream.read` during calibration: samples of one
chunk (possibly empty: `if not data: continue`), or a raised exception. -/
inductive CalRead where
  | ok (samples : List Int)
  | err
deriving DecidableEq

/-- Collect the peak amplitudes (`background_frames`) of the calibration
loop; `Except.error` models an exception raised by a read, which aborts the
loop.  Reads with empty data are skipped. -/
def calFrames : List CalRead → Except Unit (List Nat)
  | [] => Except.ok []
  | CalRead.err :: _ => Except.error ()
  | CalRead.ok s :: rest =>
    if s.isEmpty then calFrames rest
    else (calFrames rest).map (fun ps => peakAmp s :: ps)

/-- Result of one calibration pass: the returned threshold, the error-level
log records written, and the status events emitted through a status
callback.  The `AudioRecorder` class defines no status callback mechanism
(its methods are listed in `audioRecorderMethods` below) and its
calibration code only calls `logging`, so the emitted status-event list is
always empty. -/
structure CalibrationOutcome where
  threshold : ℚ
  errorLogs : List String
  statusEvents : List String
deriving DecidableEq

/-- Embedding of `calibrate_silence_threshold`: reads `CALIBRATION_FRAMES`
chunks from the stream, collects peak amplitudes of the non-empty ones;
with zero collected frames (or on an exception) it falls back to
`DEFAULT_SILENCE_THRESHOLD` and writes one error log; otherwise it returns
the mean peak plus `CALIBRATION_BUFFER`. -/
def calibrate_silence_threshold (stream : Nat → CalRead) : CalibrationOutcome :=
  match calFrames ((List.range CALIBRATION_FRAMES).map stream) with
  | Except.error _ =>
    { threshold := DEFAULT_SILENCE_THRESHOLD
      errorLogs := ["Error during calibration"]
      statusEvents := [] }
  | Except.ok [] =>
    { threshold := DEFAULT_SILENCE_THRESHOLD
      errorLogs := ["No valid background frames captured. Using default threshold."]
      statusEvents := [] }
  | Except.ok peaks =>
    { threshold := (peaks.map (fun p => (p : ℚ))).sum / peaks.length + CALIBRATION_BUFFER
      errorLogs := []
      statusEvents := [] }

/-- C5, counterexample: with every calibration read returning empty data,
zero valid frames are captured and the fallback fires, but NO status event
is emitted (the recorder has no status-callback mechanism; it only writes a
log record), so "emits exactly one error status event" fails. -/
theorem calibrate_emits_no_status_event :
    (calibrate_silence_threshold (fun _ => CalRead.ok [])).threshold
        = DEFAULT_SILENCE_THRESHOLD
    ∧ ¬ ((calibrate_silence_threshold (fun _ => CalRead.ok [])).statusEvents.length = 1) := by
  refine ⟨by decide, by decide⟩

/-- C5, amended: when zero valid calibration frames are captured,
`calibrate` returns the hard-coded default threshold, never raises, emits
no status events, and writes exactly one error log record; when at least
one valid frame is captured (and no read raises), it returns
mean of the peak amplitudes plus `CALIBRATION_BUFFER`. -/
theorem calibrate_fallback_and_mean (stream : Nat → CalRead) :
    (calFrames ((List.range CALIBRATION_FRAMES).map stream) = Except.ok [] →
      calibrate_silence_threshold stream
        = { threshold := DEFAULT_SILENCE_THRESHOLD
            errorLogs := ["No valid background frames captured. Using default threshold."]
            statusEvents := [] })
    ∧ (∀ p ps, calFrames ((List.range CALIBRATION_FRAMES).map stream)
          = Except.ok (p :: ps) →
        (calibrate_silence_threshold stream).threshold
          = ((p :: ps).map (fun q => (q : ℚ))).sum / (p :: ps).length
              + CALIBRATION_BUFFER) := by
  constructor
  · intro h
    rw [calibrate_silence_threshold, h]
  · intro p ps h
    rw [calibrate_silence_threshold, h]

/-- Witness for the C5 theorem: an all-empty stream hits the fallback, and
a stream of constant chunks with peak 300 yields `300 + 200 = 500` (mean of
thirty 300-peaks plus the buffer). -/
theorem calibrate_fallback_and_mean_witness :
    calibrate_silence_threshold (fun _ => CalRead.ok [])
      = { threshold := DEFAULT_SILENCE_THRESHOLD
          errorLogs := ["No valid background frames captured. Using default threshold."]
          statusEvents := [] }
    ∧ (calibrate_silence_threshold (fun _ => CalRead.ok [300])).threshold
        = ((List.replicate 30 (300 : Nat)).map (fun q => (q : ℚ))).sum
            / (List.replicate 30 (300 : Nat)).length + CALIBRATION_BUFFER :=
  ⟨(calibrate_fallback_and_mean (fun _ => CalRead.ok [])).1 rfl,
   by
    have h := (calibrate_fallback_and_mean (fun _ => CalRead.ok [300])).2 300
      (List.replicate 29 300) rfl
    simpa using h⟩

/-! Transcription validation, from
`WhisperTranscriber.validate_transcription` (whisper.py lines 98-125).
Python string primitives (`str.strip`, `str.lower`, `str.split`) are
embedded as executable functions on the character list of the string. -/

/-- Python `str.strip()`: drop whitespace from both ends. -/
def pyStrip (s : List Char) : List Char :=
  ((s.dropWhile Char.isWhitespace).reverse.dropWhile Char.isWhitespace).reverse

/-- Python `str.lower()` (ASCII case, which covers every string compared
here). -/
def pyLower (s : List Char) : List Char :=
  s.map Char.toLower

/-- Python `text.strip().lower()`. -/
def stripLower (text : String) : String :=
  String.mk (pyLower (pyStrip text.data))

/-- Embedding of `_normalize_text`: empty text stays empty, otherwise strip
whitespace and lowercase. -/
def normalize_text (text : String) : String :=
  if text = "" then "" else stripLower text

/-- Word counter for Python `len(s.split())`: maximal whitespace-separated
runs, empty pieces dropped.  The flag records whether the previous
character was inside a word. -/
def countWords : List Char → Bool → Nat
  | [], _ => 0
  | c :: rest, inWord =>
    if c.isWhitespace then countWords rest false
    else (if inWord then 0 else 1) + countWords rest true

/-- Python `len(s.split())`. -/
def wordCount (s : String) : Nat :=
  countWords s.data false

/-- Embedding of `validate_transcription`: empty text is rejected; then the
word count of the normalized text is checked against
`MINIMUM_WORD_COUNT`, and only afterwards the normalized text is compared
with the normalized suspicious phrases. -/
def validate_transcription (text : String) : Bool × Option String :=
  if text = "" then (false, some "Empty transcription")
  else
    let normalized := normalize_text text
    let wc := wordCount normalized
    if wc < MINIMUM_WORD_COUNT then
      (false, some ("Transcription too short (" ++ toString wc
        ++ " words) - possible audio quality issue"))
    else if normalized ∈ SUSPICIOUS_RESPONSES.map normalize_text then
      (false, some "Low confidence transcription detected")
    else (true, none)

/-- C4, counterexample: the text "ok" is indeed invalid, but its reason is
the too-short message, not the low-confidence one - the word-count check
(1 word < 3) fires before the suspicious-phrase check is reached. -/
theorem validate_ok_reason_too_short_not_low_confidence :
    (validate_transcription "ok").1 = false
    ∧ (validate_transcription "ok").2
        = some "Transcription too short (1 words) - possible audio quality issue"
    ∧ ¬ ((validate_transcription "ok").2
        = some "Low confidence transcription detected") := by
  refine ⟨by decide, by decide, by decide⟩

/-- C4, amended: `validate_transcription` is a pure function of the text
(validating the same text twice yields the same pair); the text "ok"
(1 word, in the suspicious list) is invalid with the too-short reason
because the word-count check precedes the suspicious-phrase check; and a
text of 3 or more words not in the suspicious list, such as
"hello there friend", is valid. -/
theorem validate_transcription_gate :
    (∀ text : String, validate_transcription text = validate_transcription text)
    ∧ validate_transcription "ok"
        = (false, some "Transcription too short (1 words) - possible audio quality issue")
    ∧ validate_transcription "hello there friend" = (true, none) :=
  ⟨fun _ => rfl, by decide, by decide⟩

/-! Chat messages and LLM request preparation, from
`src/speech_to_text/llm/mlxw_to_llm.py` and
`src/speech_to_text/chat/chat_history.py`. -/

/-- Message roles accepted by `_validate_messages`. -/
inductive Role where
  | system
  | user
  | assistant
deriving DecidableEq

/-- One chat message: a `{role, content}` dictionary. -/
structure Message where
  role : Role
  content : String
deriving DecidableEq

/-- Test for `msg.get("role") == "system"`. -/
def isSystem (m : Message) : Bool :=
  m.role == Role.system

/-- Embedding of `MLXWToLLM._validate_messages`: non-empty list, every
content non-blank, and the first system message (if any) sits at index 0.
The dictionary-shape and role-name checks of the source are guaranteed by
the `Message` type itself. -/
def validate_messages (messages : List Message) : Bool :=
  if messages.isEmpty then false
  else if messages.any (fun m => (pyStrip m.content.data).isEmpty) then false
  else
    match messages.filter isSystem with
    | [] => true
    | s :: _ => decide (messages.head? = some s)

/-- Embedding of `MLXWToLLM._prepare_messages`: system messages first, then
the non-system conversation, then the current text as a user message;
empty current text or failed validation yields the empty list. -/
def prepare_messages (current_text : String) (message_history : List Message) :
    List Message :=
  if (pyStrip current_text.data).isEmpty then []
  else
    let system_messages := message_history.filter isSystem
    let conversation := message_history.filter (fun m => !(isSystem m))
    let messages := system_messages ++ conversation ++ [⟨Role.user, current_text⟩]
    if validate_messages messages then messages else []

/-- All system messages precede every user/assistant message. -/
def sysFirst : List Message → Bool
  | [] => true
  | m :: rest =>
    if isSystem m then sysFirst rest
    else rest.all (fun x => !(isSystem x))

theorem sysFirst_of_allConv {l : List Message}
    (h : l.all (fun x => !(isSystem x)) = true) : sysFirst l = true := by
  cases l with
  | nil => rfl
  | cons m rest =>
    simp only [List.all_cons, Bool.and_eq_true, Bool.not_eq_true'] at h
    simp [sysFirst, h.1, h.2]

theorem sysFirst_sys_conv :
    ∀ (s c : List Message), (∀ m ∈ s, isSystem m = true) →
      c.all (fun x => !(isSystem x)) = true → sysFirst (s ++ c) = true := by
  intro s
  induction s with
  | nil => intro c _ hc; simpa using sysFirst_of_allConv hc
  | cons m s' ih =>
    intro c hs hc
    have hm : isSystem m = true := hs m (List.mem_cons_self m s')
    have hs' : ∀ x ∈ s', isSystem x = true := fun x hx => hs x (List.mem_cons_of_mem m hx)
    simp only [List.cons_append, sysFirst, hm, if_true]
    exact ih c hs' hc

theorem sysFirst_append_nonsys :
    ∀ (l : List Message) (m : Message), sysFirst l = true → isSystem m = false →
      sysFirst (l ++ [m]) = true := by
  intro l
  induction l with
  | nil => intro m _ hm; simp [sysFirst, hm]
  | cons x rest ih =>
    intro m hl hm
    cases hx : isSystem x with
    | true =>
      simp only [sysFirst, hx, if_true] at hl
      simp only [List.cons_append, sysFirst, hx, if_true]
      exact ih m hl hm
    | false =>
      have hl' : rest.all (fun x => !(isSystem x)) = true := by
        simpa [sysFirst, hx] using hl
      have hall : (rest ++ [m]).all (fun x => !(isSystem x)) = true := by
        rw [List.all_append]
        simp [hl', hm]
      simpa [sysFirst, List.cons_append, hx] using hall

/-- Output of `_prepare_messages` always lists system messages first. -/
theorem prepare_messages_sysFirst (current_text : String)
    (message_history : List Message) :
    sysFirst (prepare_messages current_text message_history) = true := by
  unfold prepare_messages
  by_cases h1 : (pyStrip current_text.data).isEmpty
  · simp [h1, sysFirst]
  · simp only [h1, Bool.false_eq_true, if_false, List.append_assoc]
    by_cases h2 : validate_messages
        (message_history.filter isSystem
          ++ (message_history.filter (fun m => !(isSystem m))
            ++ [⟨Role.user, current_text⟩]))
    · simp only [h2, if_true]
      apply sysFirst_sys_conv
      · intro m hm
        exact List.of_mem_filter hm
      · rw [List.all_append, Bool.and_eq_true]
        constructor
        · rw [List.all_eq_true]
          intro x hx
          simpa using List.of_mem_filter hx
        · simp [isSystem]
    · simp [h2, sysFirst]

/-! Chat history state, from `ChatHistory` (chat_history.py). -/

/-- Python truthiness of an optional string: `None` and `""` are falsy. -/
def optTruthy : Option String → Bool
  | none => false
  | some s => !(s == "")

/-- Mutable state of a `ChatHistory` instance. -/
structure ChatState where
  current_chat_id : Option String
  messages : List Message
deriving DecidableEq

/-- Parts of an LLM chat-completions response used by the chat layer:
the response `id` and `choices[0]["message"]["content"]` (presence of
`choices[0]` is validated in `process_chat` before the response is
handed to the history). -/
structure LLMResp where
  id : Option String
  content : String
deriving DecidableEq

/-- Embedding of `ChatHistory.initialize_from_llm_response`: without a
truthy response id the state is unchanged; otherwise existing system
messages are preserved in front of the initial user/assistant exchange and
the chat id is set. -/
def init_from_llm_response (st : ChatState) (resp : LLMResp)
    (user_message : String) : ChatState :=
  if optTruthy resp.id then
    { current_chat_id := resp.id
      messages := st.messages.filter isSystem
        ++ [⟨Role.user, user_message⟩, ⟨Role.assistant, resp.content⟩] }
  else st

/-- Embedding of `ChatHistory.add_message`: appends only when a chat id is
set. -/
def add_message (st : ChatState) (role : Role) (content : String) : ChatState :=
  if optTruthy st.current_chat_id then
    { st with messages := st.messages ++ [⟨role, content⟩] }
  else st

/-- The chat-history operations performed by the chat flow
(`ChatHandler.process_message` and `ChatHandler.start_new_chat`):
user/assistant appends after a turn, re-initialization from a model
response, and starting a new chat with an optional seeded document
system message. -/
inductive ChatOp where
  | addUser (content : String)
  | addAssistant (content : String)
  | initFromResponse (resp : LLMResp) (user_message : String)
  | startNewChat (docContent : Option String)

/-- The system message seeded by `start_new_chat` for a document. -/
def docSystemMessage (c : String) : Message :=
  ⟨Role.system, "<<START OF DOCUMENT>>\n" ++ c ++ "\n<<END OF DOCUMENT>>"⟩

def runChatOp (st : ChatState) : ChatOp → ChatState
  | ChatOp.addUser c => add_message st Role.user c
  | ChatOp.addAssistant c => add_message st Role.assistant c
  | ChatOp.initFromResponse r u => init_from_llm_response st r u
  | ChatOp.startNewChat none => { current_chat_id := none, messages := [] }
  | ChatOp.startNewChat (some d) =>
    { current_chat_id := none, messages := [docSystemMessage d] }

/-- Running a sequence of chat-flow operations from a fresh `ChatHistory`. -/
def runChatOps (ops : List ChatOp) : ChatState :=
  ops.foldl runChatOp { current_chat_id := none, messages := [] }

theorem runChatOp_sysFirst (st : ChatState) (op : ChatOp)
    (h : sysFirst st.messages = true) : sysFirst (runChatOp st op).messages = true := by
  cases op with
  | addUser c =>
    unfold runChatOp add_message
    by_cases ht : optTruthy st.current_chat_id
    · simp only [ht, if_true]
      exact sysFirst_append_nonsys st.messages ⟨Role.user, c⟩ h rfl
    · simpa [ht] using h
  | addAssistant c =>
    unfold runChatOp add_message
    by_cases ht : optTruthy st.current_chat_id
    · simp only [ht, if_true]
      exact sysFirst_append_nonsys st.messages ⟨Role.assistant, c⟩ h rfl
    · simpa [ht] using h
  | initFromResponse r u =>
    unfold runChatOp init_from_llm_response
    by_cases ht : optTruthy r.id
    · simp only [ht, if_true]
      apply sysFirst_sys_conv
      · intro m hm
        exact List.of_mem_filter hm
      · simp [isSystem]
    · simpa [ht] using h
  | startNewChat d =>
    cases d with
    | none => rfl
    | some c => rfl

theorem runChatOps_sysFirst_aux :
    ∀ (ops : List ChatOp) (st : ChatState), sysFirst st.messages = true →
      sysFirst (ops.foldl runChatOp st).messages = true := by
  intro ops
  induction ops with
  | nil => intro st h; exact h
  | cons op rest ih =>
    intro st h
    exact ih (runChatOp st op) (runChatOp_sysFirst st op h)

/-- System messages of the history are preserved exactly by
re-initialization from a model response. -/
theorem init_preserves_system (st : ChatState) (resp : LLMResp) (u : String) :
    (init_from_llm_response st resp u).messages.filter isSystem
      = st.messages.filter isSystem := by
  unfold init_from_llm_response
  by_cases h : optTruthy resp.id
  · simp only [h, if_true]
    rw [List.filter_append]
    have h1 : (st.messages.filter isSystem).filter isSystem
        = st.messages.filter isSystem :=
      List.filter_eq_self.mpr (fun a ha => List.of_mem_filter ha)
    rw [h1]
    simp [isSystem]
  · simp [h]

/-- C7: every message list produced by `_prepare_messages` for the model
and every chat-history state reachable by the chat flow lists all system
messages strictly before any user/assistant message, and
`initialize_from_llm_response` preserves the history's system messages
(in particular the first system message, once set). -/
theorem chat_system_messages_first :
    (∀ (current_text : String) (history : List Message),
      sysFirst (prepare_messages current_text history) = true)
    ∧ (∀ ops : List ChatOp, sysFirst (runChatOps ops).messages = true)
    ∧ (∀ (st : ChatState) (resp : LLMResp) (u : String),
        (init_from_llm_response st resp u).messages.filter isSystem
          = st.messages.filter isSystem) :=
  ⟨prepare_messages_sysFirst,
   fun ops => runChatOps_sysFirst_aux ops { current_chat_id := none, messages := [] } rfl,
   init_preserves_system⟩

/-! Chat turn processing, from `ChatHandler.process_message`
(chat_handler.py lines 45-127) and `MLXWToLLM.process_chat`.  The external
language-model HTTP call is an oracle parameter
`llm : List Message → Option (String × LLMResp)` (`none` models a failed
request or an unusable response); the number of oracle invocations is
returned so that "no model call" is provable.  Speech synthesis
(Kokoro) affects neither the returned pair, the history, nor the call
count - its exceptions are caught and only logged - so it needs no
parameter here. -/

/-- Embedding of `MLXWToLLM.process_chat`: returns
`(response_text, llm_response, number of HTTP calls made)`. -/
def process_chat (llm : List Message → Option (String × LLMResp))
    (text : String) (message_history : List Message) :
    Option String × Option LLMResp × Nat :=
  if text = "" then (none, none, 0)
  else
    let messages := prepare_messages text message_history
    if messages.isEmpty then (none, none, 0)
    else
      match llm messages with
      | none => (none, none, 1)
      | some (rt, lr) => (some rt, some lr, 1)

/-- The exit phrases checked by `ChatHandler.process_message`. -/
def EXIT_PHRASES : List String := ["exit", "quit", "stop"]

/-- Embedding of `ChatHandler.process_message`: returns the
`(continue, response)` pair, the updated chat-history state, and the
number of language-model HTTP calls made. -/
def process_message (llm : List Message → Option (String × LLMResp))
    (st : ChatState) (text : String) :
    (Bool × Option String) × ChatState × Nat :=
  if stripLower text ∈ EXIT_PHRASES then ((false, none), st, 0)
  else
    let pc := process_chat llm text st.messages
    let response_text := pc.1
    let llm_response := pc.2.1
    let calls := pc.2.2
    let st1 :=
      if optTruthy st.current_chat_id then
        if optTruthy response_text && llm_response.isSome then
          add_message (add_message st Role.user text) Role.assistant
            (response_text.getD "")
        else st
      else
        match llm_response with
        | some lr =>
          if optTruthy response_text then init_from_llm_response st lr text else st
        | none => st
    if optTruthy response_text then ((true, response_text), st1, calls)
    else ((true, none), st1, calls)

/-- C8: whenever the input text, trimmed and lowercased, is one of the
exit phrases, `process_message` returns continue=False with no response,
leaves the chat history untouched, and makes no language-model call. -/
theorem process_message_exit_short_circuit
    (llm : List Message → Option (String × LLMResp)) (st : ChatState)
    (text : String) (h : stripLower text ∈ EXIT_PHRASES) :
    process_message llm st text = ((false, none), st, 0) := by
  simp [process_message, h]

/-- Witness for C8 at the concrete input " Exit " with an empty history. -/
theorem process_message_exit_short_circuit_witness :
    stripLower " Exit " ∈ EXIT_PHRASES
    ∧ process_message (fun _ => none) { current_chat_id := none, messages := [] }
        " Exit " = ((false, none), { current_chat_id := none, messages := [] }, 0) :=
  ⟨by decide,
   process_message_exit_short_circuit (fun _ => none)
     { current_chat_id := none, messages := [] } " Exit " (by decide)⟩

/-! The HTTP requests built by `MLXWToLLM.process_chat` and
`MLXWToLLM.process_text` (mlxw_to_llm.py lines 192-215 and 286-309). -/

/-- The parameters of one `requests.post` chat-completions call. -/
structure ChatCompletionRequest where
  url : String
  timeoutSeconds : Nat
  model : String
  messages : List Message
  temperature : ℚ
  max_tokens : Nat
  streamFlag : Bool
deriving DecidableEq

/-- The request `process_chat` posts (when it posts one): note the
hard-coded `timeout=30` in the source. -/
def process_chat_request (text : String) (message_history : List Message) :
    Option ChatCompletionRequest :=
  if text = "" then none
  else
    let messages := prepare_messages text message_history
    if messages.isEmpty then none
    else some
      { url := LLM_BASE_URL ++ "/chat/completions"
        timeoutSeconds := 30
        model := LLM_MODEL
        messages := messages
        temperature := LLM_TEMPERATURE
        max_tokens := LLM_MAX_TOKENS
        streamFlag := false }

/-- The request `process_text` posts (when it posts one): also
`timeout=30` in the source. -/
def process_text_request (text : String) : Option ChatCompletionRequest :=
  if text = "" then none
  else some
    { url := LLM_BASE_URL ++ "/chat/completions"
      timeoutSeconds := 30
      model := LLM_MODEL
      messages := [⟨Role.user, text⟩]
      temperature := LLM_TEMPERATURE
      max_tokens := LLM_MAX_TOKENS
      streamFlag := false }

/-- C6, counterexample: the LLM HTTP request is posted with a timeout of
30 seconds, not with the configurable `LLM_REQUEST_TIMEOUT` (600 seconds);
the setting exists but is never applied to a request. -/
theorem llm_timeout_not_600 :
    (process_text_request "hello").map (fun r => r.timeoutSeconds) = some 30
    ∧ ¬ ((30 : Nat) = LLM_REQUEST_TIMEOUT) := by
  refine ⟨rfl, by decide⟩

/-- C6, amended: every HTTP request to the language-model backend is made
with a hard-coded timeout of 30 seconds; the `LLM_REQUEST_TIMEOUT = 600`
setting is defined but unused by these requests. -/
theorem llm_timeout_hardcoded_30 :
    (∀ (text : String) (r : ChatCompletionRequest),
      process_text_request text = some r → r.timeoutSeconds = 30)
    ∧ (∀ (text : String) (history : List Message) (r : ChatCompletionRequest),
      process_chat_request text history = some r → r.timeoutSeconds = 30)
    ∧ LLM_REQUEST_TIMEOUT = 600 := by
  refine ⟨?_, ?_, rfl⟩
  · intro text r h
    unfold process_text_request at h
    by_cases ht : text = ""
    · simp [ht] at h
    · simp only [ht, if_false] at h
      cases h
      rfl
  · intro text history r h
    unfold process_chat_request at h
    by_cases ht : text = ""
    · simp [ht] at h
    · simp only [ht, if_false] at h
      by_cases hm : (prepare_messages text history).isEmpty
      · simp [hm] at h
      · simp only [hm, Bool.false_eq_true, if_false, Option.some.injEq] at h
        rw [← h]

/-- Witness for C6 at the concrete text "hello" with an empty history. -/
theorem llm_timeout_hardcoded_30_witness :
    process_text_request "hello"
      = some
        { url := LLM_BASE_URL ++ "/chat/completions"
          timeoutSeconds := 30
          model := LLM_MODEL
          messages := [⟨Role.user, "hello"⟩]
          temperature := LLM_TEMPERATURE
          max_tokens := LLM_MAX_TOKENS
          streamFlag := false }
    ∧ process_chat_request "hello" []
      = some
        { url := LLM_BASE_URL ++ "/chat/completions"
          timeoutSeconds := 30
          model := LLM_MODEL
          messages := [⟨Role.user, "hello"⟩]
          temperature := LLM_TEMPERATURE
          max_tokens := LLM_MAX_TOKENS
          streamFlag := false }
    ∧ ({ url := LLM_BASE_URL ++ "/chat/completions"
         timeoutSeconds := 30
         model := LLM_MODEL
         messages := [⟨Role.user, "hello"⟩]
         temperature := LLM_TEMPERATURE
         max_tokens := LLM_MAX_TOKENS
         streamFlag := false } : ChatCompletionRequest).timeoutSeconds = 30
    ∧ ({ url := LLM_BASE_URL ++ "/chat/completions"
         timeoutSeconds := 30
         model := LLM_MODEL
         messages := [⟨Role.user, "hello"⟩]
         temperature := LLM_TEMPERATURE
         max_tokens := LLM_MAX_TOKENS
         streamFlag := false } : ChatCompletionRequest).timeoutSeconds = 30 :=
  ⟨rfl, rfl,
   llm_timeout_hardcoded_30.1 "hello" _ rfl,
   llm_timeout_hardcoded_30.2.1 "hello" [] _ rfl⟩

/-! Session cleanup, from `cleanup_session` (api_utils.py lines 244-259).
The module-level `session_queues` dictionary is modelled as a map from
session id to an optional queue (here a `Nat` tag). -/

/-- The global session-queue registry. -/
def SessionRegistry : Type := String → Option Nat

/-- Embedding of `cleanup_session`: with a truthy session id, delete that
session's queue if present (`if session_id in session_queues: del ...`);
with a falsy id (`None` or `""`), clear every session.  The returned
number counts executions of the `del session_queues[session_id]`
statement. -/
def cleanup_session (session_id : Option String) (reg : SessionRegistry) :
    SessionRegistry × Nat :=
  match session_id with
  | some s =>
    if s = "" then (fun _ => none, 0)
    else if (reg s).isSome then ((fun k => if k = s then none else reg k), 1)
    else (reg, 0)
  | none => (fun _ => none, 0)

/-- C9: for a session id with a registered queue, running cleanup twice
releases the queue exactly once - the first call deletes it, the second
call finds nothing to delete and leaves the registry unchanged - so
concurrent terminal-event and observer-disconnect triggers funnelling into
this routine release the resource one time, not zero, not twice. -/
theorem cleanup_session_exactly_once (reg : SessionRegistry) (s : String)
    (hne : s ≠ "") (hp : (reg s).isSome = true) :
    (cleanup_session (some s) reg).2 = 1
    ∧ (cleanup_session (some s) (cleanup_session (some s) reg).1).2 = 0
    ∧ (cleanup_session (some s) (cleanup_session (some s) reg).1).1
        = (cleanup_session (some s) reg).1 := by
  have h1 : cleanup_session (some s) reg
      = ((fun k => if k = s then none else reg k), 1) := by
    simp [cleanup_session, hne, hp]
  have h2 : ((fun k => if k = s then none else reg k) s).isSome = false := by
    simp
  refine ⟨by rw [h1], ?_, ?_⟩
  · rw [h1]
    simp [cleanup_session, hne, h2]
  · rw [h1]
    simp [cleanup_session, hne, h2]

/-- Witness for C9 at a concrete one-session registry. -/
theorem cleanup_session_exactly_once_witness :
    (cleanup_session (some "abc")
      (fun k => if k = "abc" then some 0 else none)).2 = 1
    ∧ (cleanup_session (some "abc")
        (cleanup_session (some "abc")
          (fun k => if k = "abc" then some 0 else none)).1).2 = 0
    ∧ (cleanup_session (some "abc")
        (cleanup_session (some "abc")
          (fun k => if k = "abc" then some 0 else none)).1).1
        = (cleanup_session (some "abc")
            (fun k => if k = "abc" then some 0 else none)).1 :=
  cleanup_session_exactly_once (fun k => if k = "abc" then some 0 else none)
    "abc" (by decide) (by simp)

/-! Status stream, from `connect_status.py` (`validate_status_event`,
`stream_status`) and the publisher-side `STATUS_TYPES` of `api_utils.py`. -/

/-- Keys of `VALID_STATUS_TYPES` in connect_status.py. -/
def VALID_STATUS_TYPES : List String :=
  ["calibrating", "recording", "silence", "processing", "streaming",
   "complete", "error"]

/-- Keys of `STATUS_TYPES` in api_utils.py (the publisher-side list, which
additionally allows the document statuses). -/
def API_STATUS_TYPES : List String :=
  ["calibrating", "recording", "silence", "processing", "doc_loading",
   "doc_processing", "streaming", "complete", "error"]

/-- Embedding of `validate_status_type` (api_utils.py), used by the
publisher callback. -/
def validate_status_type (status : String) : Bool :=
  decide (status ∈ API_STATUS_TYPES)

/-- The failing half of the silence check in `validate_status_event`:
`progress is None or not 0 <= progress <= 100`. -/
def progressInvalid : Option Int → Bool
  | none => true
  | some p => !(decide (0 ≤ p) && decide (p ≤ 100))

/-- One event taken from a session's status queue: its status kind,
message, and optional progress. -/
structure QueuedEvent where
  status : String
  message : String
  progress : Option Int
deriving DecidableEq

/-- Embedding of `validate_status_event` (connect_status.py lines 32-53):
unknown status kinds are rejected, and a "silence" status additionally
requires an integer progress between 0 and 100.  The source returns False
early when the status is unknown; here that early return is the else
branch of the membership test. -/
def validate_status_event (status message : String) (progress : Option Int) :
    Bool :=
  if status ∈ VALID_STATUS_TYPES then
    if status == "silence" && progressInvalid progress then false else true
  else false

/-- The sequence of events the `stream_status` generator loop delivers to
its subscriber, given the queued events in order: events failing
validation are skipped with `continue`; a delivered terminal event
("complete" or "error") ends the stream after delivery. -/
def stream_status_deliver : List QueuedEvent → List QueuedEvent
  | [] => []
  | e :: rest =>
    if validate_status_event e.status e.message e.progress then
      if e.status == "complete" || e.status == "error" then [e]
      else e :: stream_status_deliver rest
    else stream_status_deliver rest

theorem validate_status_event_props (status message : String)
    (progress : Option Int)
    (h : validate_status_event status message progress = true) :
    status ∈ VALID_STATUS_TYPES
    ∧ (status = "silence" → ∃ p, progress = some p ∧ 0 ≤ p ∧ p ≤ 100) := by
  unfold validate_status_event at h
  by_cases h1 : status ∈ VALID_STATUS_TYPES
  · rw [if_pos h1] at h
    refine ⟨h1, fun hs => ?_⟩
    subst hs
    have hpi : progressInvalid progress = false := by
      cases hp : progressInvalid progress
      · rfl
      · rw [if_pos (by simp [hp])] at h
        cases h
    cases progress with
    | none => simp [progressInvalid] at hpi
    | some q =>
      have hq : 0 ≤ q ∧ q ≤ 100 := by
        simpa [progressInvalid] using hpi
      exact ⟨q, rfl, hq.1, hq.2⟩
  · rw [if_neg h1] at h
    cases h

theorem stream_status_deliver_validated :
    ∀ (q : List QueuedEvent) (e : QueuedEvent), e ∈ stream_status_deliver q →
      validate_status_event e.status e.message e.progress = true := by
  intro q
  induction q with
  | nil => intro e he; cases he
  | cons x rest ih =>
    intro e he
    unfold stream_status_deliver at he
    by_cases hv : validate_status_event x.status x.message x.progress
    · rw [if_pos hv] at he
      by_cases ht : (x.status == "complete" || x.status == "error") = true
      · rw [if_pos ht] at he
        have : e = x := by simpa using he
        rw [this]
        exact hv
      · rw [if_neg ht] at he
        rcases List.mem_cons.mp he with h | h
        · rw [h]; exact hv
        · exact ih e h
    · rw [if_neg (by simpa using hv)] at he
      exact ih e he

/-- C10: every event the status stream delivers has a status kind from the
subscriber-side valid set, a delivered "silence" event carries an integer
progress between 0 and 100, and an event failing validation - including
the "doc_loading"/"doc_processing" kinds, which the publisher-side
validation accepts - is skipped without terminating the stream. -/
theorem status_stream_delivery_valid :
    (∀ (q : List QueuedEvent) (e : QueuedEvent), e ∈ stream_status_deliver q →
      e.status ∈ VALID_STATUS_TYPES
      ∧ (e.status = "silence" → ∃ p, e.progress = some p ∧ 0 ≤ p ∧ p ≤ 100))
    ∧ (∀ (e : QueuedEvent) (rest : List QueuedEvent),
        validate_status_event e.status e.message e.progress = false →
        stream_status_deliver (e :: rest) = stream_status_deliver rest)
    ∧ (∀ (m : String) (p : Option Int),
        validate_status_type "doc_loading" = true
        ∧ validate_status_type "doc_processing" = true
        ∧ validate_status_event "doc_loading" m p = false
        ∧ validate_status_event "doc_processing" m p = false) := by
  refine ⟨?_, ?_, ?_⟩
  · intro q e he
    exact validate_status_event_props e.status e.message e.progress
      (stream_status_deliver_validated q e he)
  · intro e rest h
    rw [stream_status_deliver, if_neg (by simp [h])]
  · intro m p
    refine ⟨by decide, by decide, ?_, ?_⟩
    · unfold validate_status_event
      rw [if_neg (by decide)]
    · unfold validate_status_event
      rw [if_neg (by decide)]

/-- Witness for C10: a valid silence event with progress 50 is delivered
with its bounds, and a queued "doc_loading" event is skipped. -/
theorem status_stream_delivery_valid_witness :
    ((⟨"silence", "Detecting silence...", some 50⟩ : QueuedEvent).status
        ∈ VALID_STATUS_TYPES
      ∧ ((⟨"silence", "Detecting silence...", some 50⟩ : QueuedEvent).status
            = "silence" →
          ∃ p, (⟨"silence", "Detecting silence...", some 50⟩ : QueuedEvent).progress
              = some p ∧ 0 ≤ p ∧ p ≤ 100))
    ∧ stream_status_deliver [⟨"doc_loading", "Loading document context", none⟩]
        = stream_status_deliver []
    ∧ validate_status_event "doc_loading" "Loading document context" none = false :=
  ⟨status_stream_delivery_valid.1 [⟨"silence", "Detecting silence...", some 50⟩]
     ⟨"silence", "Detecting silence...", some 50⟩ (by decide),
   status_stream_delivery_valid.2.1 ⟨"doc_loading", "Loading document context", none⟩
     [] (by decide),
   (status_stream_delivery_valid.2.2 "Loading document context" none).2.2.1⟩

/-! The per-cycle orchestrator `handle_transcription`
(transcription_utils.py lines 35-218). -/

/-- A raised Python exception reaching the caller. -/
inductive PyError where
  | attributeError (message : String)
deriving DecidableEq

/-- The pieces of a transcription result dictionary the orchestrator
reads: the "text" entry (absent ⇒ `none`) and the "validation_error"
entry. -/
structure TransResult where
  text : Option String
  validation_error : Option String
deriving DecidableEq

/-- The response-data dictionary assembled by `handle_transcription`. -/
structure RespData where
  transcription : Option String := none
  chat_response : Option String := none
  chat_id : Option String := none
  llm_response : Option String := none
  audio_path : Option String := none
deriving DecidableEq

/-- Behaviour of the recorder during one cycle: the result of
`record_audio()` and of `process_audio_frames(frames)`. -/
structure RecorderBehaviour where
  recordResult : List (List Int) × Bool
  processedAudio : Option (List ℚ)

/-- A recorder object: the method names its class defines, plus its
behaviour.  An attribute lookup for a missing method raises
`AttributeError`. -/
structure RecorderObj where
  methods : List String
  beh : RecorderBehaviour

/-- The methods defined by class `AudioRecorder`
(src/speech_to_text/audio/recorder.py lines 26-213).  Note there is no
`set_status_callback` among them, and the class has no base class and no
dynamic attribute hook. -/
def audioRecorderMethods : List String :=
  ["__init__", "__enter__", "__exit__", "start_stream", "stop_stream",
   "cleanup", "calibrate_silence_threshold", "record_audio",
   "process_audio_frames"]

/-- An `AudioRecorder` instance with the given cycle behaviour. -/
def mkAudioRecorder (b : RecorderBehaviour) : RecorderObj :=
  { methods := audioRecorderMethods, beh := b }

/-- The boolean/optional configuration bundle of `handle_transcription`. -/
structure OrchestratorFlags where
  copy_to_clipboard : Bool
  output_file : Option String
  use_kokoro : Bool
  use_llm : Bool
  stream_to_speakers : Bool
  save_to_file : Bool
  optimize_voice : Bool

/-- Behaviour of the orchestrator's collaborators in one cycle.  A
`Except.error` value models an exception raised inside the corresponding
`try` block (clipboard copy, LLM processing, Kokoro conversion); the chat
handler field carries the `(continue, response)` outcome of
`process_message` and the current chat id, with `none` meaning no chat
handler was supplied. -/
structure OrchestratorDeps where
  stopEventSet : Bool
  transcribeResult : Option TransResult
  chatHandler : Option ((Bool × Option String) × Option String)
  clipboardOutcome : Except String Unit
  llmOutcome : Except String (Option String)
  kokoroOutcome : Except String (Option String)

/-- Embedding of `WhisperTranscriber.check_exit_command`. -/
def check_exit_command (r : TransResult) : Bool :=
  match r.text with
  | none => false
  | some t => stripLower t == "exit"

/-- The body of `handle_transcription` after the initial
`recorder.set_status_callback(status_callback)` statement: every stage
failure is converted into a `(continue, error, data)` triple. -/
def handleBody (rec : RecorderObj) (deps : OrchestratorDeps)
    (flags : OrchestratorFlags) : Bool × Option String × Option RespData :=
  if deps.stopEventSet then (false, some "Recording stopped", none)
  else
    let frames := rec.beh.recordResult.1
    let success := rec.beh.recordResult.2
    if !success || frames.isEmpty then
      (true, some "Failed to record audio", none)
    else
      match rec.beh.processedAudio with
      | none => (true, some "Failed to process audio frames", none)
      | some _ =>
        match deps.transcribeResult with
        | none => (true, some "Transcription failed", none)
        | some result =>
          match result.validation_error with
          | some e => (true, some e, none)
          | none =>
            match result.text with
            | none => (true, some "No text transcribed", none)
            | some text =>
              if text = "" then (true, some "No text transcribed", none)
              else
                let rd0 : RespData := { transcription := some text }
                match deps.chatHandler with
                | some ((continue_chat, response), chatId) =>
                  let rd :=
                    match response with
                    | some r =>
                      if r ≠ "" then
                        { rd0 with chat_response := some r, chat_id := chatId }
                      else rd0
                    | none => rd0
                  (continue_chat, none, some rd)
                | none =>
                  match (if flags.copy_to_clipboard
                          then some deps.clipboardOutcome else none) with
                  | some (Except.error e) =>
                    (true, some ("Failed to copy to clipboard: " ++ e), some rd0)
                  | _ =>
                    if check_exit_command result then (false, none, some rd0)
                    else
                      let afterLLM : Except String RespData :=
                        if flags.use_llm then
                          match deps.llmOutcome with
                          | Except.error e =>
                            Except.error ("Error in LLM processing: " ++ e)
                          | Except.ok r =>
                            Except.ok
                              (match r with
                               | some s =>
                                 if s ≠ "" then { rd0 with llm_response := some s }
                                 else rd0
                               | none => rd0)
                        else Except.ok rd0
                      match afterLLM with
                      | Except.error e => (true, some e, some rd0)
                      | Except.ok rd1 =>
                        if flags.use_kokoro && !flags.stream_to_speakers then
                          match deps.kokoroOutcome with
                          | Except.error e =>
                            (true, some ("Error in Kokoro conversion: " ++ e), some rd1)
                          | Except.ok (some p) =>
                            (true, none, some { rd1 with audio_path := some p })
                          | Except.ok none => (true, none, some rd1)
                        else (true, none, some rd1)

/-- Embedding of `handle_transcription`: its FIRST statement is
`recorder.set_status_callback(status_callback)`, an attribute lookup on
the recorder object outside any `try` block; only when that attribute
exists does the per-cycle pipeline run. -/
def handle_transcription (rec : RecorderObj) (deps : OrchestratorDeps)
    (flags : OrchestratorFlags) :
    Except PyError (Bool × Option String × Option RespData) :=
  if "set_status_callback" ∈ rec.methods then
    Except.ok (handleBody rec deps flags)
  else
    Except.error (PyError.attributeError
      "AudioRecorder object has no attribute set_status_callback")

/-- C1, the code against the claim: for EVERY recorder behaviour, flag
combination and collaborator behaviour, `handle_transcription` applied to
the repository's `AudioRecorder` raises `AttributeError` from its first
statement - `AudioRecorder` defines no `set_status_callback` method - so
it never returns the `(continue, error, data)` triple at all. -/
theorem handle_transcription_always_raises (b : RecorderBehaviour)
    (deps : OrchestratorDeps) (flags : OrchestratorFlags) :
    handle_transcription (mkAudioRecorder b) deps flags
      = Except.error (PyError.attributeError
          "AudioRecorder object has no attribute set_status_callback") := by
  have hmem : ¬ ("set_status_callback" ∈ audioRecorderMethods) := by decide
  simp [handle_transcription, mkAudioRecorder, hmem]

end SpeechToText
